import Mathlib

/-!
Shallow embedding of the Bayesian tyre-degradation estimator of the
f1-race-replay repository (src/src/bayesian_tyre_model.py and
src/src/tyre_degradation_integration.py).

Real-valued quantities of the Python code are modelled as rationals (ℚ);
the code performs only field arithmetic, `max`/`min`/clipping, and medians,
all of which are exact on ℚ.  The guard `std(xs) > 0` of the Python code
(sample or population standard deviation) holds iff not all entries of
`xs` are equal, which is how it is modelled (`hasSpread`).  The Python
`int(...)` truncation is applied to a value already clamped to `[0, 100]`,
where truncation towards zero coincides with `Int.floor`.  The standard
deviation `sqrt(var + sigma_epsilon^2)` returned by the predictor is
irrational in general; the embedding carries its radicand (`std_dev_sq`).
Pandas dataframes become lists of `Lap` records; dictionaries become
association lists with first-match lookup, which has the same lookup
semantics as a Python dict.
-/

namespace F1Replay

/-- Tyre categories (class TyreCategory of bayesian_tyre_model.py). -/
inductive TyreCategory where
  | SLICK
  | INTER
  | WET
deriving DecidableEq, Repr

/-- Track conditions (class TrackCondition of bayesian_tyre_model.py). -/
inductive TrackCondition where
  | DRY
  | DAMP
  | WET
deriving DecidableEq, Repr

/-- Per-compound parameter record (dataclass TyreProfile). -/
structure TyreProfile where
  name : String
  category : TyreCategory
  degradation_rate : ℚ
  reset_pace : ℚ
  warmup_laps : ℕ
  max_analysis_laps : Option ℕ
  max_degradation : ℚ
deriving DecidableEq, Repr

/-- Default mismatch-penalty table built in StateSpaceConfig.__post_init__. -/
def defaultMismatchPenalties : TyreCategory → TrackCondition → ℚ
  | .SLICK, .DAMP => 2
  | .SLICK, .WET => 8
  | .INTER, .DRY => 3/2
  | .INTER, .WET => 1/2
  | .WET, .DRY => 4
  | .WET, .DAMP => 1
  | _, _ => 0

/-- Hyperparameters (dataclass StateSpaceConfig), with its default values. -/
structure StateSpaceConfig where
  sigma_epsilon : ℚ := 3/10
  sigma_eta : ℚ := 1/10
  fuel_effect_prior : ℚ := 4/125
  starting_fuel : ℚ := 110
  fuel_burn_rate : ℚ := 8/5
  enable_warmup : Bool := true
  enable_track_abrasion : Bool := true
  mismatch_penalties : TyreCategory → TrackCondition → ℚ := defaultMismatchPenalties

/-- One prepared lap record (a row of the cleaned dataframe produced by
_prepare_data: driver, lap number, stint id, compound, track condition,
lap time in seconds, derived fuel mass). -/
structure Lap where
  driver : String
  lapNumber : ℕ
  stint : ℤ
  compound : String
  trackCondition : String
  lapTimeSeconds : ℚ
  fuelMass : ℚ
deriving DecidableEq, Repr

/-- First-match association-list lookup (Python dict read). -/
def lookupList {α : Type} (l : List (String × α)) (k : String) : Option α :=
  (l.find? fun p => decide (p.1 = k)).map (·.2)

/-- Order-preserving deduplication, as pandas Series.unique(): keep the
first occurrence of each value, in encounter order. -/
def uniques {α : Type} [DecidableEq α] (l : List α) : List α :=
  l.foldl (fun acc a => if a ∈ acc then acc else acc ++ [a]) []

/-- np.median: sort, take the middle element for odd length, the mean of
the two middle elements for even length (0 on the empty list, which every
call site guards against). -/
def npMedian (l : List ℚ) : ℚ :=
  let s := l.insertionSort (· ≤ ·)
  let n := l.length
  if n = 0 then 0
  else if n % 2 = 1 then s.getD (n / 2) 0
  else (s.getD (n / 2 - 1) 0 + s.getD (n / 2) 0) / 2

/-- np.clip(x, lo, hi). -/
def npClip (x lo hi : ℚ) : ℚ := min (max x lo) hi

/-- `std(l) > 0` for both the pandas sample std and np population std:
true iff some entry differs from the first (so the deviations have
nonzero spread). -/
def hasSpread (l : List ℚ) : Bool :=
  match l with
  | [] => false
  | a :: rest => rest.any fun b => decide (b ≠ a)

/-- All ordered pairs (xs[i], xs[j]) with i < j. -/
def orderedPairs {α : Type} : List α → List (α × α)
  | [] => []
  | a :: rest => (rest.map fun b => (a, b)) ++ orderedPairs rest

/-- scipy stats.theilslopes: the slope is the median of the pairwise
slopes (y_j − y_i)/(x_j − x_i) over pairs with distinct x. Points are
given as (x, y). -/
def theilSlope (pts : List (ℚ × ℚ)) : ℚ :=
  npMedian (((orderedPairs pts).filterMap fun pq =>
    if pq.2.1 ≠ pq.1.1 then some ((pq.2.2 - pq.1.2) / (pq.2.1 - pq.1.1)) else none))

/-- Stable sort by lap number (pandas sort_values("LapNumber")). -/
def sortByLapNumber (laps : List Lap) : List Lap :=
  laps.insertionSort fun a b => a.lapNumber ≤ b.lapNumber

/-- condition_map.get(track_condition, TrackCondition.DRY) as used
throughout the model: unknown strings coerce to DRY. -/
def conditionMap (s : String) : TrackCondition :=
  if s = "DRY" then .DRY
  else if s = "DAMP" then .DAMP
  else if s = "WET" then .WET
  else .DRY

/-- The dry/wet condition category of _compute_latent_states line 459:
'DRY' if the mapped condition is DRY, else 'WET'. -/
def conditionCategory (track_condition : String) : String :=
  if conditionMap track_condition = TrackCondition.DRY then "DRY" else "WET"

/-- Model state (class BayesianTyreDegradationModel attributes). -/
structure Model where
  config : StateSpaceConfig
  tyre_profiles : List (String × TyreProfile)
  fuel_effect : ℚ
  sigma_epsilon : ℚ
  sigma_eta : ℚ
  track_abrasion : ℚ
  latent_states : List (String × List ℚ)
  latent_uncertainty : List (String × List ℚ)
  fitted : Bool

/-- The five default tyre profiles of __init__. -/
def defaultTyreProfiles : List (String × TyreProfile) :=
  [ ("HARD", { name := "HARD", category := .SLICK, degradation_rate := 1/100,
               reset_pace := 139/2, warmup_laps := 3, max_analysis_laps := none,
               max_degradation := 2 }),
    ("MEDIUM", { name := "MEDIUM", category := .SLICK, degradation_rate := 3/100,
                 reset_pace := 69, warmup_laps := 3, max_analysis_laps := none,
                 max_degradation := 2 }),
    ("SOFT", { name := "SOFT", category := .SLICK, degradation_rate := 1/20,
               reset_pace := 137/2, warmup_laps := 1, max_analysis_laps := some 10,
               max_degradation := 2 }),
    ("INTERMEDIATE", { name := "INTERMEDIATE", category := .INTER, degradation_rate := 1/25,
                       reset_pace := 75, warmup_laps := 2, max_analysis_laps := none,
                       max_degradation := 3 }),
    ("WET", { name := "WET", category := .WET, degradation_rate := 1/50,
              reset_pace := 80, warmup_laps := 2, max_analysis_laps := none,
              max_degradation := 5/2 }) ]

/-- A freshly constructed (unfitted) model with a given configuration. -/
def mkModel (config : StateSpaceConfig) : Model :=
  { config := config
    tyre_profiles := defaultTyreProfiles
    fuel_effect := config.fuel_effect_prior
    sigma_epsilon := config.sigma_epsilon
    sigma_eta := config.sigma_eta
    track_abrasion := 1
    latent_states := []
    latent_uncertainty := []
    fitted := false }

/-- Profile lookup (self.tyre_profiles[compound], as Option). -/
def lookupProfile (m : Model) (compound : String) : Option TyreProfile :=
  lookupList m.tyre_profiles compound

/-- Python _compute_mismatch_penalty: 0 for unknown compounds, else the table
entry for (category, mapped condition). -/
def compute_mismatch_penalty (m : Model) (compound track_condition : String) : ℚ :=
  match lookupProfile m compound with
  | none => 0
  | some tyre => m.config.mismatch_penalties tyre.category (conditionMap track_condition)

/-! ### State-space filter (_compute_latent_states) -/

/-- The per-driver running state of the filter loop of
_compute_latent_states: the current latent (mean, variance) pair
(`none` before the first known-compound lap, since Python initializes
mu_alpha = var_alpha = None), the appended state and variance sequences,
and the stint id / condition category stored at the last reset. -/
structure FilterState where
  state : Option (ℚ × ℚ)
  states : List ℚ
  variances : List ℚ
  prevStint : Option ℤ
  prevCond : Option String
deriving DecidableEq, Repr

/-- Initial per-driver filter state. -/
def initFilterState : FilterState :=
  { state := none, states := [], variances := [], prevStint := none, prevCond := none }

/-- The reset condition of line 466:
mu_alpha is None, or stint != prev_stint, or condition_changed (the
previous condition category exists and differs from this lap's). -/
def resetTrigger (st : FilterState) (lap : Lap) : Bool :=
  st.state.isNone
  || decide (some lap.stint ≠ st.prevStint)
  || (match st.prevCond with
      | none => false
      | some p => decide (p ≠ conditionCategory lap.trackCondition))

/-- The abrasion factor applied to a compound's degradation rate
(lines 476-478 and 566-568): wet tyres are damped to 30% sensitivity. -/
def abrasionFactor (m : Model) (cat : TyreCategory) : ℚ :=
  if cat = TyreCategory.WET then 1 + (3/10) * (m.track_abrasion - 1) else m.track_abrasion

/-- The scalar Kalman gain of line 502: var_pred / (var_pred + obs_var). -/
def kalmanGain (var_pred obs_var : ℚ) : ℚ := var_pred / (var_pred + obs_var)

/-- The predict-then-update step of lines 476-508, producing the new
(mu_alpha, var_alpha) pair from the previous one. -/
def kalmanUpdate (m : Model) (tyre : TyreProfile) (lap : Lap)
    (mu_alpha var_alpha : ℚ) : ℚ × ℚ :=
  let obs_var := m.sigma_epsilon ^ 2
  let proc_var := m.sigma_eta ^ 2
  let nu0 := tyre.degradation_rate * abrasionFactor m tyre.category
  let mismatch_penalty := compute_mismatch_penalty m lap.compound lap.trackCondition
  let nu := if mismatch_penalty > 1/2 then nu0 * (1 + mismatch_penalty / 10) else nu0
  let mu_pred_temp := mu_alpha + nu
  let var_pred := var_alpha + proc_var
  let expected_lap := mu_pred_temp + m.fuel_effect * lap.fuelMass + mismatch_penalty
  let innovation := lap.lapTimeSeconds - expected_lap
  let K := kalmanGain var_pred obs_var
  let effective_nu := nu * (1 - K)
  let mu_pred := mu_alpha + effective_nu
  (mu_pred + K * innovation, (1 - K) * var_pred)

/-- One iteration of the lap loop of _compute_latent_states (lines
436-511): unknown compounds carry the state forward (appending it again
when one exists); otherwise reset or predict-then-update. -/
def stepLap (m : Model) (st : FilterState) (lap : Lap) : FilterState :=
  match lookupProfile m lap.compound with
  | none =>
    match st.state with
    | none => st
    | some mv =>
      { st with states := st.states ++ [mv.1], variances := st.variances ++ [mv.2] }
  | some tyre =>
    if resetTrigger st lap then
      { state := some (tyre.reset_pace, m.sigma_eta ^ 2)
        states := st.states ++ [tyre.reset_pace]
        variances := st.variances ++ [m.sigma_eta ^ 2]
        prevStint := some lap.stint
        prevCond := some (conditionCategory lap.trackCondition) }
    else
      match st.state with
      | none => st
      | some mv =>
        let mv' := kalmanUpdate m tyre lap mv.1 mv.2
        { st with state := some mv'
                  states := st.states ++ [mv'.1]
                  variances := st.variances ++ [mv'.2] }

/-- The whole per-driver filter pass: laps in increasing lap-number
order, folded through stepLap. -/
def computeLatentStatesDriver (m : Model) (laps : List Lap) : FilterState :=
  (sortByLapNumber laps).foldl (stepLap m) initFilterState

/-- Python _compute_latent_states: one filter pass per driver, in first-seen
driver order, yielding each driver's (states, variances). -/
def compute_latent_states (m : Model) (laps : List Lap) :
    List (String × FilterState) :=
  (uniques (laps.map (·.driver))).map fun d =>
    (d, computeLatentStatesDriver m (laps.filter fun l => decide (l.driver = d)))

/-! ### Track abrasion estimator (estimate_track_abrasion) -/

/-- The compound baseline wear rates (self._abrasion_baseline). -/
def abrasionBaseline : List (String × ℚ) :=
  [("HARD", 3/1000), ("MEDIUM", 9/1000), ("SOFT", 3/200)]

/-- One stint's abrasion sample (the inner loop of
estimate_track_abrasion, lines 176-198): requires at least 8 laps,
fuel-corrects, takes the delta from the stint's first corrected lap,
and when the deltas have spread and the robust slope is positive records
slope / base_rate. -/
def abrasionStintSample (m : Model) (base_rate : ℚ) (stint_laps : List Lap) : Option ℚ :=
  if stint_laps.length < 8 then none
  else
    let fuel_corrected := stint_laps.map fun l =>
      l.lapTimeSeconds - m.fuel_effect * l.fuelMass
    let first_fc := fuel_corrected.headD 0
    let delta := fuel_corrected.map fun fc => fc - first_fc
    if hasSpread delta then
      let pts := ((List.range stint_laps.length).zip delta).map fun p =>
        (((p.1 + 1 : ℕ) : ℚ), p.2)
      let slope := theilSlope pts
      if slope > 0 then some (slope / base_rate) else none
    else none

/-- All abrasion samples over baseline compounds, dry laps, grouped by
driver then stint (lines 161-198). -/
def abrasionSamples (m : Model) (laps : List Lap) : List ℚ :=
  abrasionBaseline.flatMap fun cb =>
    let slick_laps := laps.filter fun l =>
      decide (l.compound = cb.1 ∧ l.trackCondition = "DRY")
    if slick_laps.isEmpty then []
    else
      (uniques (slick_laps.map (·.driver))).flatMap fun d =>
        let driver_laps := slick_laps.filter fun l => decide (l.driver = d)
        (uniques (driver_laps.map (·.stint))).filterMap fun s =>
          abrasionStintSample m cb.2 (driver_laps.filter fun l => decide (l.stint = s))

/-- estimate_track_abrasion (lines 158-211): neutral 1.0 with fewer than
3 samples, else the median of the samples clipped to [0.7, 1.4]. -/
def estimate_track_abrasion (m : Model) (laps : List Lap) : ℚ :=
  let samples := abrasionSamples m laps
  if samples.length < 3 then 1
  else npClip (npMedian samples) (7/10) (7/5)

/-! ### Parameter estimator (_estimate_parameters) -/

/-- Python _should_use_lap_for_fitting: whether a (compound, condition) pairing
is usable for slope fitting; unknown compounds count as SLICK. -/
def should_use_lap_for_fitting (m : Model) (compound track_condition : String) : Bool :=
  let cat := match lookupProfile m compound with
    | none => TyreCategory.SLICK
    | some t => t.category
  let cond := conditionMap track_condition
  match cat with
  | .SLICK => decide (cond = .DRY)
  | .INTER => decide (cond = .DAMP ∨ cond = .WET ∨ cond = .DRY)
  | .WET => decide (cond = .WET)

/-- The slope post-processing of _estimate_parameters lines 357-365:
clip the raw robust slope at 0, divide out the track abrasion factor
when abrasion modelling is on and the factor is positive, and cap
intermediate slopes at 0.08 when more than 30% of the stint's usable
laps were run in DRY condition. -/
def processedSlope (m : Model) (tyre : TyreProfile) (valid_laps : List Lap) (raw : ℚ) : ℚ :=
  let slope1 := max 0 raw
  let slope2 := if m.config.enable_track_abrasion && decide (m.track_abrasion > 0)
    then slope1 / m.track_abrasion else slope1
  if tyre.category = TyreCategory.INTER then
    let dry_fraction :=
      ((valid_laps.filter fun l => decide (l.trackCondition = "DRY")).length : ℚ) /
        (valid_laps.length : ℚ)
    if dry_fraction > 3/10 then min slope2 (2/25) else slope2
  else slope2

/-- One stint's degradation-slope sample (the inner loop of
_estimate_parameters, lines 311-367): at least 5 stint laps and 3 usable
laps, fuel-correct, delta from first, drop warm-up laps and laps beyond
the analysis cap, and when more than 2 laps remain with spread fit the
robust slope and post-process it. Points carry (LapOnTyre,
DeltaFromFirst). -/
def stintSlopeSample (m : Model) (tyre : TyreProfile) (stint_laps : List Lap) : Option ℚ :=
  if stint_laps.length < 5 then none
  else
    let valid_laps := stint_laps.filter fun l =>
      should_use_lap_for_fitting m l.compound l.trackCondition
    if valid_laps.length < 3 then none
    else
      let fuel_corrected := valid_laps.map fun l =>
        l.lapTimeSeconds - m.fuel_effect * l.fuelMass
      let first_fc := fuel_corrected.headD 0
      let delta := fuel_corrected.map fun fc => fc - first_fc
      let rows := ((List.range valid_laps.length).zip delta).map fun p =>
        (((p.1 + 1 : ℕ) : ℚ), p.2)
      let rows1 := if m.config.enable_warmup then
          rows.filter fun r => decide (r.1 > (tyre.warmup_laps : ℚ))
        else rows
      let analysis : List (ℚ × ℚ) := match tyre.max_analysis_laps with
        | some cap => rows1.filter fun r => decide (r.1 ≤ (cap : ℚ))
        | none => rows1
      if analysis.length > 2 then
        if analysis.length > 0 && hasSpread (analysis.map (·.2)) then
          some (processedSlope m tyre valid_laps (theilSlope analysis))
        else none
      else none

/-- All per-stint slope samples for one compound (lines 301-367): skip
compounds with fewer than 5 laps, group by driver then stint. -/
def compoundSlopes (m : Model) (laps : List Lap) (name : String) (tyre : TyreProfile) :
    List ℚ :=
  let compound_laps := laps.filter fun l => decide (l.compound = name)
  if compound_laps.length < 5 then []
  else
    (uniques (compound_laps.map (·.driver))).flatMap fun d =>
      let driver_laps := compound_laps.filter fun l => decide (l.driver = d)
      (uniques (driver_laps.map (·.stint))).filterMap fun s =>
        stintSlopeSample m tyre (driver_laps.filter fun l => decide (l.stint = s))

/-- The prior/evidence blend of lines 369-391: with samples, the new rate
is w·prior + (1−w)·median with w = 0.3/0.4/0.5 by category; without
samples the prior is retained. -/
def updatedRate (tyre : TyreProfile) (samples : List ℚ) : ℚ :=
  if samples.length > 0 then
    let median_slope := npMedian samples
    let prior_weight : ℚ := match tyre.category with
      | .SLICK => 3/10
      | .INTER => 2/5
      | .WET => 1/2
    prior_weight * tyre.degradation_rate + (1 - prior_weight) * median_slope
  else tyre.degradation_rate

/-- Python _estimate_parameters: update every catalog entry's degradation rate
in place. -/
def estimate_parameters (m : Model) (laps : List Lap) : List (String × TyreProfile) :=
  m.tyre_profiles.map fun p =>
    (p.1, { p.2 with degradation_rate := updatedRate p.2 (compoundSlopes m laps p.1 p.2) })

/-! ### Predictor / health scorer (predict_next_lap, get_health) -/

/-- Python _compute_warmup_penalty (lines 516-533). -/
def compute_warmup_penalty (m : Model) (tyre : TyreProfile) (lap_on_tyre : ℕ) : ℚ :=
  if !m.config.enable_warmup || decide (lap_on_tyre > tyre.warmup_laps) then 0
  else
    let max_penalty : ℚ := match tyre.category with
      | .SLICK => 3/10
      | .INTER => 1/5
      | .WET => 3/20
    if tyre.warmup_laps > 0 then
      max_penalty * (1 - ((lap_on_tyre : ℚ) - 1) / (tyre.warmup_laps : ℚ))
    else 0

/-- The health computation of predict_next_lap lines 600-607:
max_laps = max_degradation / max(effective_degradation, 0.001);
effective_laps inflated by (1 + penalty/5) when the mismatch penalty
exceeds 0.5; health = int(clamp(100·(1 − effective_laps/max_laps), 0, 100)),
where int() truncation equals the floor on this non-negative value. -/
def healthIndex (max_degradation effective_degradation mismatch_penalty : ℚ)
    (laps_on_tyre : ℕ) : ℤ :=
  let max_laps := max_degradation / max effective_degradation (1/1000)
  let effective_laps : ℚ :=
    if mismatch_penalty > 1/2 then (laps_on_tyre : ℚ) * (1 + mismatch_penalty / 5)
    else (laps_on_tyre : ℚ)
  Int.floor (max 0 (min 100 (100 * (1 - effective_laps / max_laps))))

/-- The info record assembled by predict_next_lap (lines 609-626).
std_dev_sq carries the radicand of std_dev = sqrt(var_alpha + sigma_epsilon²);
the confidence interval, being predicted_time ± 1.96·std_dev, is derived
from these fields and not carried separately. -/
structure PredictInfo where
  latent_pace : ℚ
  predicted_time : ℚ
  std_dev_sq : ℚ
  health : ℤ
  laps_on_tyre : ℕ
  compound : String
  category : TyreCategory
  degradation_rate : ℚ
  effective_degradation : ℚ
  track_abrasion : ℚ
  mismatch_penalty : ℚ
  track_condition : String
deriving DecidableEq, Repr

/-- The lap subset predict_next_lap works on (lines 545-548): this
driver's laps at or before the current lap, in lap-number order. -/
def driverLapsUpTo (driver : String) (current_lap : ℕ) (laps : List Lap) : List Lap :=
  sortByLapNumber (laps.filter fun l =>
    decide (l.driver = driver ∧ l.lapNumber ≤ current_lap))

/-- predict_next_lap (lines 535-628). The Python function raises
RuntimeError before fitting and returns (None, None, {}) when the driver
has no laps or the compound is unknown; the embedding returns
Except.error for the former and Except.ok none for the latter. -/
def predict_next_lap (m : Model) (driver : String) (current_lap : ℕ)
    (laps : List Lap) (track_condition : Option String) :
    Except String (Option PredictInfo) :=
  if m.fitted = false then Except.error "Model must be fitted before prediction"
  else
    let driver_laps := driverLapsUpTo driver current_lap laps
    match driver_laps.getLast? with
    | none => Except.ok none
    | some last_lap =>
      match lookupProfile m last_lap.compound with
      | none => Except.ok none
      | some tyre =>
        let stint := last_lap.stint
        let stint_laps := driver_laps.filter fun l => decide (l.stint = stint)
        let laps_on_tyre := stint_laps.length
        let effective_degradation := tyre.degradation_rate * abrasionFactor m tyre.category
        let alpha0 := if laps_on_tyre = 1 then tyre.reset_pace
          else tyre.reset_pace + ((laps_on_tyre : ℚ) - 1) * effective_degradation
        let alpha_t := alpha0 + compute_warmup_penalty m tyre laps_on_tyre
        let next_lap := current_lap + 1
        let fuel_next := max 0
          (m.config.starting_fuel - ((next_lap : ℚ) - 1) * m.config.fuel_burn_rate)
        let tc := track_condition.getD last_lap.trackCondition
        let mismatch_penalty := compute_mismatch_penalty m last_lap.compound tc
        let predicted_time := alpha_t + m.fuel_effect * fuel_next + mismatch_penalty
        let var_alpha :=
          ((lookupList m.latent_uncertainty driver).getD []).getLastD (m.sigma_eta ^ 2)
        Except.ok (some
          { latent_pace := alpha_t
            predicted_time := predicted_time
            std_dev_sq := var_alpha + m.sigma_epsilon ^ 2
            health := healthIndex tyre.max_degradation effective_degradation
              mismatch_penalty laps_on_tyre
            laps_on_tyre := laps_on_tyre
            compound := last_lap.compound
            category := tyre.category
            degradation_rate := tyre.degradation_rate
            effective_degradation := effective_degradation
            track_abrasion := m.track_abrasion
            mismatch_penalty := mismatch_penalty
            track_condition := tc })

/-- The health record returned by get_health (lines 654-667).
uncertainty_sq carries the square of the reported uncertainty. -/
structure HealthRecord where
  compound : String
  category : TyreCategory
  laps_on_tyre : ℕ
  health : ℤ
  expected_delta : ℚ
  actual_delta : ℚ
  overdriving : Bool
  uncertainty_sq : ℚ
  latent_pace : ℚ
  mismatch_penalty : ℚ
  track_condition : String
  track_abrasion : ℚ
deriving DecidableEq, Repr

/-- get_health (lines 636-667): delegate to predict_next_lap (the "not
fitted" error propagates), return none on an empty info, else repackage. -/
def get_health (m : Model) (driver : String) (current_lap : ℕ)
    (laps : List Lap) (track_condition : Option String) :
    Except String (Option HealthRecord) :=
  (predict_next_lap m driver current_lap laps track_condition).map fun info? =>
    match info? with
    | none => none
    | some info => some
      { compound := info.compound
        category := info.category
        laps_on_tyre := info.laps_on_tyre
        health := info.health
        expected_delta := info.effective_degradation * (info.laps_on_tyre : ℚ)
        actual_delta := 0
        overdriving := false
        uncertainty_sq := info.std_dev_sq
        latent_pace := info.latent_pace
        mismatch_penalty := info.mismatch_penalty
        track_condition := info.track_condition
        track_abrasion := info.track_abrasion }

/-! ### Integrator with cache (tyre_degradation_integration.py) -/

/-- TyreDegradationIntegrator state. -/
structure Integrator where
  model : Model
  laps_df : List Lap
  isInit : Bool
  cache : List (String × HealthRecord)

/-- The cache key f-string of get_tyre_health line 61; Python formats a
missing condition as the string "None". -/
def cacheKey (driver_code : String) (current_lap : ℕ) (track_condition : Option String) :
    String :=
  driver_code ++ "_" ++ toString current_lap ++ "_" ++
    (match track_condition with
     | some c => c
     | none => "None")

/-- get_tyre_health (lines 50-80). Returns (result, new integrator state,
whether the underlying model was invoked). Python stores only truthy
results in the cache and converts a model exception into a logged None. -/
def get_tyre_health (it : Integrator) (driver_code : String) (current_lap : ℕ)
    (track_condition : Option String) (force_refresh : Bool) :
    Option HealthRecord × Integrator × Bool :=
  if it.isInit = false then (none, it, false)
  else
    let key := cacheKey driver_code current_lap track_condition
    match (if force_refresh = false then lookupList it.cache key else none) with
    | some h => (some h, it, false)
    | none =>
      match get_health it.model driver_code current_lap it.laps_df track_condition with
      | Except.error _ => (none, it, true)
      | Except.ok none => (none, it, true)
      | Except.ok (some h) =>
        (some h, { it with cache := (key, h) :: it.cache }, true)

/-- clear_cache (line 110). -/
def clear_cache (it : Integrator) : Integrator := { it with cache := [] }

/-! ### Concrete sample data used to instantiate the theorems -/

/-- A freshly constructed model with the default configuration. -/
def sampleModel : Model := mkModel {}

/-- The default model marked fitted (the state fit leaves behind on a
lap history that touches no compound and yields no abrasion samples). -/
def fittedSampleModel : Model := { mkModel {} with fitted := true }

/-- The default MEDIUM profile. -/
def sampleProfileMEDIUM : TyreProfile :=
  { name := "MEDIUM", category := .SLICK, degradation_rate := 3/100,
    reset_pace := 69, warmup_laps := 3, max_analysis_laps := none,
    max_degradation := 2 }

/-- A mid-stint filter state on dry running: one processed lap, latent
mean 69 with variance 1/100, stint 1, condition category DRY. -/
def sampleStateDry : FilterState :=
  { state := some (69, 1/100), states := [69], variances := [1/100],
    prevStint := some 1, prevCond := some "DRY" }

/-- A second mid-stint dry filter state with a latent mean away from any
reset pace, to make a reset numerically visible. -/
def sampleStateDry2 : FilterState :=
  { state := some (70, 1/50), states := [70], variances := [1/50],
    prevStint := some 1, prevCond := some "DRY" }

/-- A dry MEDIUM lap continuing stint 1. -/
def sampleLapDry : Lap :=
  { driver := "VER", lapNumber := 3, stint := 1, compound := "MEDIUM",
    trackCondition := "DRY", lapTimeSeconds := 70, fuelMass := 100 }

/-- A wet MEDIUM lap continuing stint 1: a mid-stint DRY to WET
condition-category switch. -/
def sampleLapWet : Lap :=
  { driver := "VER", lapNumber := 4, stint := 1, compound := "MEDIUM",
    trackCondition := "WET", lapTimeSeconds := 78, fuelMass := 98 }

/-- An initialized integrator over a fitted model with an empty lap
history and an empty cache. -/
def sampleIntegrator : Integrator :=
  { model := fittedSampleModel, laps_df := [], isInit := true, cache := [] }

/-! ### Theorems -/

/-- C3: with a non-negative prior variance, a non-negative process-noise
variance and a positive observation-noise variance, the Kalman gain
K = σ²_pred / (σ²_pred + σ_ε²) of the update step lies within [0, 1]. -/
theorem kalman_gain_in_unit_interval (sigma_sq eta_sq eps_sq : ℚ)
    (h1 : 0 ≤ sigma_sq) (h2 : 0 ≤ eta_sq) (h3 : 0 < eps_sq) :
    0 ≤ kalmanGain (sigma_sq + eta_sq) eps_sq ∧
      kalmanGain (sigma_sq + eta_sq) eps_sq ≤ 1 := by
  unfold kalmanGain
  constructor
  · exact div_nonneg (by linarith) (by linarith)
  · rw [div_le_one (by linarith)]
    linarith

/-- Witness for C3 at σ² = 1/100, σ_η² = 1/100, σ_ε² = 9/100. -/
theorem kalman_gain_in_unit_interval_witness :
    (0 ≤ (1/100 : ℚ) ∧ 0 ≤ (1/100 : ℚ) ∧ 0 < (9/100 : ℚ)) ∧
    (0 ≤ kalmanGain ((1:ℚ)/100 + 1/100) (9/100) ∧
      kalmanGain ((1:ℚ)/100 + 1/100) (9/100) ≤ 1) :=
  ⟨⟨by norm_num, by norm_num, by norm_num⟩,
   kalman_gain_in_unit_interval (1/100) (1/100) (9/100)
     (by norm_num) (by norm_num) (by norm_num)⟩

/-- C5: for every lap history, the track abrasion estimate is exactly 1
with fewer than 3 qualifying stint samples, and otherwise the median of
the samples clipped to [0.7, 1.4]; in either case it lies in [0.7, 1.4]. -/
theorem track_abrasion_estimate_spec (m : Model) (laps : List Lap) :
    ((abrasionSamples m laps).length < 3 → estimate_track_abrasion m laps = 1) ∧
    (¬ (abrasionSamples m laps).length < 3 →
      estimate_track_abrasion m laps =
        npClip (npMedian (abrasionSamples m laps)) (7/10) (7/5)) ∧
    (7/10 ≤ estimate_track_abrasion m laps ∧ estimate_track_abrasion m laps ≤ 7/5) := by
  unfold estimate_track_abrasion
  by_cases h : (abrasionSamples m laps).length < 3
  · rw [if_pos h]
    refine ⟨fun _ => rfl, fun hc => absurd h hc, by norm_num, by norm_num⟩
  · rw [if_neg h]
    refine ⟨fun hc => absurd hc h, fun _ => rfl, ?_, ?_⟩
    · exact le_min (le_max_right _ _) (by norm_num)
    · exact min_le_right _ _

/-- C7: querying predict_next_lap (and hence get_health) before fit has
succeeded fails with the "not fitted" error, for every driver, lap number
and lap history. -/
theorem predict_before_fit_errors (m : Model) (driver : String) (current_lap : ℕ)
    (laps : List Lap) (tc : Option String) (h : m.fitted = false) :
    predict_next_lap m driver current_lap laps tc
      = Except.error "Model must be fitted before prediction" ∧
    get_health m driver current_lap laps tc
      = Except.error "Model must be fitted before prediction" := by
  unfold get_health predict_next_lap
  simp [h, Except.map]

/-- Witness for C7: a freshly constructed model is unfitted and both
queries error. -/
theorem predict_before_fit_errors_witness :
    (mkModel {}).fitted = false ∧
    (predict_next_lap (mkModel {}) "VER" 5 [] none
        = Except.error "Model must be fitted before prediction" ∧
      get_health (mkModel {}) "VER" 5 [] none
        = Except.error "Model must be fitted before prediction") :=
  ⟨rfl, predict_before_fit_errors (mkModel {}) "VER" 5 [] none rfl⟩

/-- C8: on a fitted model, a health query for a driver with no laps at or
before the current lap, or whose most recent lap's compound is not in
the catalog, returns an absent result (ok none) rather than an error. -/
theorem health_query_absent_result (m : Model) (driver : String) (current_lap : ℕ)
    (laps : List Lap) (tc : Option String) (hfit : m.fitted = true)
    (h : (driverLapsUpTo driver current_lap laps) = [] ∨
      ∃ last, (driverLapsUpTo driver current_lap laps).getLast? = some last ∧
        lookupProfile m last.compound = none) :
    predict_next_lap m driver current_lap laps tc = Except.ok none ∧
    get_health m driver current_lap laps tc = Except.ok none := by
  have hp : predict_next_lap m driver current_lap laps tc = Except.ok none := by
    unfold predict_next_lap
    rcases h with h | ⟨last, hlast, hprof⟩
    · simp [hfit, h]
    · simp [hfit, hlast, hprof]
  refine ⟨hp, ?_⟩
  unfold get_health
  rw [hp]
  rfl

/-- Witness for C8: a fitted default model queried with an empty lap
history returns ok none from both entry points. -/
theorem health_query_absent_result_witness :
    ({ mkModel {} with fitted := true } : Model).fitted = true ∧
    (driverLapsUpTo "VER" 5 [] = [] ∨
      ∃ last, (driverLapsUpTo "VER" 5 []).getLast? = some last ∧
        lookupProfile { mkModel {} with fitted := true } last.compound = none) ∧
    (predict_next_lap { mkModel {} with fitted := true } "VER" 5 [] none = Except.ok none ∧
      get_health { mkModel {} with fitted := true } "VER" 5 [] none = Except.ok none) :=
  ⟨rfl, Or.inl rfl,
   health_query_absent_result { mkModel {} with fitted := true } "VER" 5 [] none
     rfl (Or.inl rfl)⟩

/-- The clamped pre-truncation health value is antitone in the effective
lap count once the normalizing lap budget is positive. -/
lemma health_clamp_antitone {M e1 e2 : ℚ} (hM : 0 < M) (h : e1 ≤ e2) :
    max 0 (min 100 (100 * (1 - e2 / M))) ≤ max 0 (min 100 (100 * (1 - e1 / M))) := by
  have hdiv : e1 / M ≤ e2 / M := by
    exact div_le_div_of_nonneg_right h hM.le
  have : (100 : ℚ) * (1 - e2 / M) ≤ 100 * (1 - e1 / M) := by nlinarith
  exact max_le_max le_rfl (min_le_min le_rfl this)

/-- C6: for fixed compound, track condition and fitted model (positive
max_degradation, positive effective degradation, non-negative mismatch
penalty), the health index is non-increasing in laps_on_tyre and is 0 for
every lap count at or beyond max_degradation / effective_degradation. -/
theorem health_monotone_and_exhausts (max_deg eff_deg mismatch : ℚ)
    (hmd : 0 < max_deg) (hed : 0 < eff_deg) (_hmm : 0 ≤ mismatch) :
    (∀ l1 l2 : ℕ, l1 ≤ l2 →
      healthIndex max_deg eff_deg mismatch l2 ≤ healthIndex max_deg eff_deg mismatch l1) ∧
    (∀ l : ℕ, max_deg / eff_deg ≤ (l : ℚ) →
      healthIndex max_deg eff_deg mismatch l = 0) := by
  have hfloor : (0 : ℚ) < max eff_deg (1/1000) := lt_max_of_lt_right (by norm_num)
  have hM : 0 < max_deg / max eff_deg (1/1000) := div_pos hmd hfloor
  have hmult : (1 : ℚ) ≤ (if mismatch > 1/2 then 1 + mismatch / 5 else 1) := by
    split
    · linarith
    · exact le_rfl
  have heff : ∀ l : ℕ,
      (if mismatch > 1/2 then (l : ℚ) * (1 + mismatch / 5) else (l : ℚ)) =
        (l : ℚ) * (if mismatch > 1/2 then 1 + mismatch / 5 else 1) := by
    intro l
    split <;> ring
  have hrepr : ∀ l : ℕ, healthIndex max_deg eff_deg mismatch l =
      Int.floor (max 0 (min 100 ((100 : ℚ) *
        (1 - (if mismatch > 1/2 then (l : ℚ) * (1 + mismatch / 5) else (l : ℚ)) /
          (max_deg / max eff_deg (1/1000)))))) := fun _ => rfl
  constructor
  · intro l1 l2 hl
    rw [hrepr l1, hrepr l2, heff l1, heff l2]
    apply Int.floor_le_floor
    apply health_clamp_antitone hM
    have hc : (l1 : ℚ) ≤ (l2 : ℚ) := by exact_mod_cast hl
    have h0 : (0 : ℚ) ≤ (if mismatch > 1/2 then 1 + mismatch / 5 else 1) := by linarith
    exact mul_le_mul_of_nonneg_right hc h0
  · intro l hl
    rw [hrepr l, heff l]
    have hMle : max_deg / max eff_deg (1/1000) ≤ max_deg / eff_deg :=
      div_le_div_of_nonneg_left (le_of_lt hmd) hed (le_max_left _ _)
    have hlpos : (0 : ℚ) ≤ (l : ℚ) := Nat.cast_nonneg l
    have heM : max_deg / max eff_deg (1/1000) ≤
        (l : ℚ) * (if mismatch > 1/2 then 1 + mismatch / 5 else 1) := by
      have h1 : (l : ℚ) ≤ (l : ℚ) * (if mismatch > 1/2 then 1 + mismatch / 5 else 1) :=
        le_mul_of_one_le_right hlpos hmult
      linarith
    have hratio : (1 : ℚ) ≤
        ((l : ℚ) * (if mismatch > 1/2 then 1 + mismatch / 5 else 1)) /
          (max_deg / max eff_deg (1/1000)) :=
      (one_le_div hM).mpr heM
    have hval : (100 : ℚ) *
        (1 - ((l : ℚ) * (if mismatch > 1/2 then 1 + mismatch / 5 else 1)) /
          (max_deg / max eff_deg (1/1000))) ≤ 0 := by nlinarith
    rw [min_eq_right (by linarith : (100 : ℚ) * _ ≤ 100), max_eq_left hval]
    exact Int.floor_zero

/-- Witness for C6 at max_degradation = 2, effective degradation = 1/100,
mismatch penalty 0 (the default HARD-in-DRY setting). -/
theorem health_monotone_and_exhausts_witness :
    ((0 : ℚ) < 2 ∧ (0 : ℚ) < 1/100 ∧ (0 : ℚ) ≤ 0) ∧
    ((∀ l1 l2 : ℕ, l1 ≤ l2 →
      healthIndex 2 (1/100) 0 l2 ≤ healthIndex 2 (1/100) 0 l1) ∧
    (∀ l : ℕ, (2 : ℚ) / (1/100) ≤ (l : ℚ) → healthIndex 2 (1/100) 0 l = 0)) :=
  ⟨⟨by norm_num, by norm_num, le_rfl⟩,
   health_monotone_and_exhausts 2 (1/100) 0 (by norm_num) (by norm_num) le_rfl⟩

/-- C1: in the filter's non-reset branch for a known compound, one lap
step appends exactly the claimed quantities: with ν the degradation rate
times the (wet-damped) abrasion factor, inflated by (1 + δ/10) when the
mismatch penalty δ exceeds 1/2, it holds that σ²_pred = σ² + σ_η²,
e = y − (μ + ν + fuel_effect·fuel + δ), K = σ²_pred/(σ²_pred + σ_ε²),
μ' = (μ + ν·(1 − K)) + K·e and σ²' = (1 − K)·σ²_pred. -/
theorem filter_update_step_formulas (m : Model) (st : FilterState) (lap : Lap)
    (tyre : TyreProfile) (mu sigma_sq : ℚ)
    (hprof : lookupProfile m lap.compound = some tyre)
    (hstate : st.state = some (mu, sigma_sq))
    (hreset : resetTrigger st lap = false) :
    (let delta := compute_mismatch_penalty m lap.compound lap.trackCondition
     let nu0 := tyre.degradation_rate *
       (if tyre.category = TyreCategory.WET
        then 1 + (3/10) * (m.track_abrasion - 1) else m.track_abrasion)
     let nu := if delta > 1/2 then nu0 * (1 + delta / 10) else nu0
     let varPred := sigma_sq + m.sigma_eta ^ 2
     let K := varPred / (varPred + m.sigma_epsilon ^ 2)
     let e := lap.lapTimeSeconds - (mu + nu + m.fuel_effect * lap.fuelMass + delta)
     let muNew := mu + nu * (1 - K) + K * e
     let varNew := (1 - K) * varPred
     (stepLap m st lap).state = some (muNew, varNew) ∧
     (stepLap m st lap).states = st.states ++ [muNew] ∧
     (stepLap m st lap).variances = st.variances ++ [varNew]) := by
  have hstep : stepLap m st lap =
      { st with state := some (kalmanUpdate m tyre lap mu sigma_sq)
                states := st.states ++ [(kalmanUpdate m tyre lap mu sigma_sq).1]
                variances := st.variances ++ [(kalmanUpdate m tyre lap mu sigma_sq).2] } := by
    unfold stepLap
    rw [hprof, hstate]
    simp [hreset]
  rw [hstep]
  exact ⟨rfl, rfl, rfl⟩

/-- C2: for a known compound, the filter resets exactly when the state is
uninitialized, the stint id differs from the tracked one, or the tracked
condition category differs from this lap's; a reset stores the compound's
reset_pace with variance σ_η² and updates the tracked stint/category;
otherwise the predict-then-update recursion is applied. -/
theorem filter_reset_exactly_at_boundaries (m : Model) (st : FilterState) (lap : Lap)
    (tyre : TyreProfile) (hprof : lookupProfile m lap.compound = some tyre) :
    (resetTrigger st lap = true ↔
      st.state = none ∨ st.prevStint ≠ some lap.stint ∨
        (∃ p, st.prevCond = some p ∧ p ≠ conditionCategory lap.trackCondition)) ∧
    (resetTrigger st lap = true →
      stepLap m st lap =
        { state := some (tyre.reset_pace, m.sigma_eta ^ 2)
          states := st.states ++ [tyre.reset_pace]
          variances := st.variances ++ [m.sigma_eta ^ 2]
          prevStint := some lap.stint
          prevCond := some (conditionCategory lap.trackCondition) }) ∧
    (resetTrigger st lap = false → ∀ mu sigma_sq, st.state = some (mu, sigma_sq) →
      stepLap m st lap =
        { st with state := some (kalmanUpdate m tyre lap mu sigma_sq)
                  states := st.states ++ [(kalmanUpdate m tyre lap mu sigma_sq).1]
                  variances := st.variances ++ [(kalmanUpdate m tyre lap mu sigma_sq).2] }) := by
  refine ⟨?_, ?_, ?_⟩
  · unfold resetTrigger
    cases hp : st.prevCond with
    | none =>
      simp [Option.isNone_iff_eq_none, ne_comm]
    | some p =>
      simp [Option.isNone_iff_eq_none, ne_comm, or_assoc]
  · intro hr
    unfold stepLap
    rw [hprof]
    simp [hr]
  · intro hr mu sigma_sq hstate
    unfold stepLap
    rw [hprof, hstate]
    simp [hr]

/-- Witness for C1: a dry MEDIUM lap continuing stint 1 on the default
model, evaluated to explicit rationals. -/
theorem filter_update_step_formulas_witness :
    (lookupProfile sampleModel sampleLapDry.compound = some sampleProfileMEDIUM ∧
      sampleStateDry.state = some (69, 1/100) ∧
      resetTrigger sampleStateDry sampleLapDry = false) ∧
    (stepLap sampleModel sampleStateDry sampleLapDry).state =
      some (75481/1100, 9/550) :=
  ⟨⟨rfl, rfl, rfl⟩, by
    have h := (filter_update_step_formulas sampleModel sampleStateDry sampleLapDry
      sampleProfileMEDIUM 69 (1/100) rfl rfl rfl).1
    have hd : compute_mismatch_penalty sampleModel sampleLapDry.compound
        sampleLapDry.trackCondition = 0 := rfl
    refine h.trans ?_
    rw [hd]
    norm_num [sampleProfileMEDIUM, sampleModel, mkModel, sampleLapDry]⟩

/-- Witness for C2 (Scenario E): a mid-stint DRY to WET switch resets the
latent mean to MEDIUM's reset_pace 69 with variance σ_η² = 1/100. -/
theorem filter_reset_exactly_at_boundaries_witness :
    (lookupProfile sampleModel sampleLapWet.compound = some sampleProfileMEDIUM ∧
      resetTrigger sampleStateDry2 sampleLapWet = true) ∧
    (stepLap sampleModel sampleStateDry2 sampleLapWet).state = some (69, 1/100) ∧
    (stepLap sampleModel sampleStateDry2 sampleLapWet).prevCond = some "WET" :=
  ⟨⟨rfl, rfl⟩, by
    have h := (filter_reset_exactly_at_boundaries sampleModel sampleStateDry2
      sampleLapWet sampleProfileMEDIUM rfl).2.1 rfl
    rw [h]
    refine ⟨?_, rfl⟩
    norm_num [sampleProfileMEDIUM, sampleModel, mkModel]⟩

/-- The invariant maintained by the filter loop: the appended state and
variance sequences stay aligned, every stored variance is positive, and
the live variance (when a state exists) is positive. -/
def filterInv (st : FilterState) : Prop :=
  st.states.length = st.variances.length ∧
  (∀ v ∈ st.variances, 0 < v) ∧
  (∀ mv : ℚ × ℚ, st.state = some mv → 0 < mv.2)

lemma stepLap_preserves_inv (m : Model) (st : FilterState) (lap : Lap)
    (hη : 0 < m.sigma_eta) (hε : 0 < m.sigma_epsilon)
    (h : filterInv st) : filterInv (stepLap m st lap) := by
  obtain ⟨hlen, hvar, hcur⟩ := h
  have hη2 : 0 < m.sigma_eta ^ 2 := pow_pos hη 2
  have hε2 : 0 < m.sigma_epsilon ^ 2 := pow_pos hε 2
  unfold stepLap
  cases hpr : lookupProfile m lap.compound with
  | none =>
    cases hst : st.state with
    | none => exact ⟨hlen, hvar, fun mv hmv => hcur mv hmv⟩
    | some mv =>
      refine ⟨by simp [hlen], ?_, ?_⟩
      · intro v hv
        rcases List.mem_append.mp hv with hv | hv
        · exact hvar v hv
        · rw [List.mem_singleton] at hv
          subst hv
          exact hcur mv hst
      · intro mv' hmv'
        have hmveq : mv = mv' := by simpa using hmv'
        rw [← hmveq]
        exact hcur mv hst
  | some tyre =>
    cases hr : resetTrigger st lap with
    | true =>
      simp only [if_true]
      refine ⟨by simp [hlen], ?_, ?_⟩
      · intro v hv
        rcases List.mem_append.mp hv with hv | hv
        · exact hvar v hv
        · rw [List.mem_singleton] at hv
          subst hv
          exact hη2
      · intro mv hmv
        simp only [Option.some.injEq] at hmv
        rw [← hmv]
        exact hη2
    | false =>
      simp only [Bool.false_eq_true, if_false]
      cases hst : st.state with
      | none => exact ⟨hlen, hvar, fun mv hmv => hcur mv ((hst ▸ hmv : st.state = some mv))⟩
      | some mv =>
        have hvp : 0 < mv.2 + m.sigma_eta ^ 2 := by
          have := hcur mv hst
          linarith
        have hpos : 0 < (kalmanUpdate m tyre lap mv.1 mv.2).2 := by
          have hrepr : (kalmanUpdate m tyre lap mv.1 mv.2).2 =
              (1 - kalmanGain (mv.2 + m.sigma_eta ^ 2) (m.sigma_epsilon ^ 2)) *
                (mv.2 + m.sigma_eta ^ 2) := rfl
          rw [hrepr]
          unfold kalmanGain
          have hden : 0 < mv.2 + m.sigma_eta ^ 2 + m.sigma_epsilon ^ 2 := by linarith
          have hK : (mv.2 + m.sigma_eta ^ 2) /
              (mv.2 + m.sigma_eta ^ 2 + m.sigma_epsilon ^ 2) < 1 :=
            (div_lt_one hden).mpr (by linarith)
          exact mul_pos (by linarith) hvp
        refine ⟨by simp [hlen], ?_, ?_⟩
        · intro v hv
          rcases List.mem_append.mp hv with hv | hv
          · exact hvar v hv
          · rw [List.mem_singleton] at hv
            subst hv
            exact hpos
        · intro mv' hmv'
          simp only [Option.some.injEq] at hmv'
          rw [← hmv']
          exact hpos

lemma foldl_stepLap_inv (m : Model) (hη : 0 < m.sigma_eta) (hε : 0 < m.sigma_epsilon) :
    ∀ (laps : List Lap) (st : FilterState), filterInv st →
      filterInv (laps.foldl (stepLap m) st)
  | [], _, h => h
  | lap :: rest, st, h =>
    foldl_stepLap_inv m hη hε rest (stepLap m st lap)
      (stepLap_preserves_inv m st lap hη hε h)

/-- C10: with positive noise scales (as in the default configuration),
after the filter pass every driver's states and variances sequences have
equal length and every stored latent variance is strictly positive, so
the predictor's radicand σ² + σ_ε² is positive as well. -/
theorem latent_state_sequences_wellformed (m : Model) (laps : List Lap)
    (hη : 0 < m.sigma_eta) (hε : 0 < m.sigma_epsilon) :
    ∀ e ∈ compute_latent_states m laps,
      e.2.states.length = e.2.variances.length ∧
      ∀ v ∈ e.2.variances, 0 < v ∧ 0 < v + m.sigma_epsilon ^ 2 := by
  intro e he
  unfold compute_latent_states at he
  rcases List.mem_map.mp he with ⟨d, _, rfl⟩
  have hinit : filterInv initFilterState :=
    ⟨rfl, by intro v hv; exact absurd hv (List.not_mem_nil v), by intro mv hmv; cases hmv⟩
  have h := foldl_stepLap_inv m hη hε
    (sortByLapNumber (laps.filter fun l => decide (l.driver = d))) initFilterState hinit
  have hε2 : 0 < m.sigma_epsilon ^ 2 := pow_pos hε 2
  exact ⟨h.1, fun v hv => ⟨h.2.1 v hv, by have := h.2.1 v hv; linarith⟩⟩

/-- Witness for C10: the default model on the one-lap history. -/
theorem latent_state_sequences_wellformed_witness :
    (0 < sampleModel.sigma_eta ∧ 0 < sampleModel.sigma_epsilon) ∧
    (∀ e ∈ compute_latent_states sampleModel [sampleLapDry],
      e.2.states.length = e.2.variances.length ∧
      ∀ v ∈ e.2.variances, 0 < v ∧ 0 < v + sampleModel.sigma_epsilon ^ 2) :=
  ⟨⟨by norm_num [sampleModel, mkModel], by norm_num [sampleModel, mkModel]⟩,
   latent_state_sequences_wellformed sampleModel [sampleLapDry]
     (by norm_num [sampleModel, mkModel]) (by norm_num [sampleModel, mkModel])⟩

lemma getD_mem_of_lt {l : List ℚ} {k : ℕ} (h : k < l.length) (d : ℚ) :
    l.getD k d ∈ l := by
  rw [List.getD_eq_getElem l d h]
  exact List.getElem_mem h

/-- The median of a list of non-negative rationals is non-negative. -/
lemma npMedian_nonneg {l : List ℚ} (h : ∀ x ∈ l, 0 ≤ x) : 0 ≤ npMedian l := by
  have hperm := List.perm_insertionSort (· ≤ ·) l
  have hlen : (l.insertionSort (· ≤ ·)).length = l.length := hperm.length_eq
  have hmem : ∀ x ∈ l.insertionSort (· ≤ ·), 0 ≤ x := fun x hx => h x (hperm.subset hx)
  simp only [npMedian]
  split_ifs with h0 hodd
  · norm_num
  · apply hmem
    apply getD_mem_of_lt
    rw [hlen]
    exact Nat.div_lt_self (Nat.pos_of_ne_zero h0) one_lt_two
  · have h1 : l.length / 2 < (l.insertionSort (· ≤ ·)).length := by
      rw [hlen]
      exact Nat.div_lt_self (Nat.pos_of_ne_zero h0) one_lt_two
    have h2 : l.length / 2 - 1 < (l.insertionSort (· ≤ ·)).length :=
      lt_of_le_of_lt (Nat.sub_le _ _) h1
    have ha := hmem _ (getD_mem_of_lt h2 (0 : ℚ))
    have hb := hmem _ (getD_mem_of_lt h1 (0 : ℚ))
    linarith

/-- The slope post-processing keeps the sample non-negative: the raw
slope is clipped at 0, and dividing by a positive abrasion factor or
capping by 0.08 preserve non-negativity. -/
lemma processedSlope_nonneg (m : Model) (tyre : TyreProfile) (valid_laps : List Lap)
    (raw : ℚ) : 0 ≤ processedSlope m tyre valid_laps raw := by
  have hbase : (0 : ℚ) ≤ max 0 raw := le_max_left _ _
  rcases Bool.eq_false_or_eq_true
    (m.config.enable_track_abrasion && decide (m.track_abrasion > 0)) with hA | hA
  · have hdiv : (0 : ℚ) ≤ max 0 raw / m.track_abrasion :=
      div_nonneg hbase (le_of_lt (of_decide_eq_true ((Bool.and_eq_true _ _).mp hA).2))
    simp only [processedSlope, hA, if_true]
    split_ifs with h1 h2
    · exact le_min hdiv (by norm_num)
    · exact hdiv
    · exact hdiv
  · simp only [processedSlope, hA, Bool.false_eq_true, if_false]
    split_ifs with h1 h2
    · exact le_min hbase (by norm_num)
    · exact hbase
    · exact hbase

/-- Every per-stint slope sample is non-negative. -/
lemma stintSlopeSample_nonneg {m : Model} {tyre : TyreProfile} {stint_laps : List Lap}
    {s : ℚ} (h : stintSlopeSample m tyre stint_laps = some s) : 0 ≤ s := by
  simp only [stintSlopeSample] at h
  split_ifs at h
  all_goals simp only [Option.some.injEq, reduceCtorEq] at h
  all_goals subst h
  all_goals exact processedSlope_nonneg m tyre _ _

/-- Every aggregated per-compound slope sample is non-negative. -/
lemma compoundSlopes_nonneg {m : Model} {laps : List Lap} {name : String}
    {tyre : TyreProfile} {s : ℚ} (h : s ∈ compoundSlopes m laps name tyre) : 0 ≤ s := by
  simp only [compoundSlopes] at h
  split_ifs at h with h5
  · exact absurd h (List.not_mem_nil s)
  · rcases List.mem_flatMap.mp h with ⟨d, _, hd⟩
    rcases List.mem_filterMap.mp hd with ⟨stint, _, hsome⟩
    exact stintSlopeSample_nonneg hsome

/-- The prior/evidence blend keeps a non-negative rate from a
non-negative prior and non-negative samples. -/
lemma updatedRate_nonneg (tyre : TyreProfile) (samples : List ℚ)
    (hp : 0 ≤ tyre.degradation_rate) (hs : ∀ x ∈ samples, 0 ≤ x) :
    0 ≤ updatedRate tyre samples := by
  simp only [updatedRate]
  split_ifs with h
  · have hmed := npMedian_nonneg hs
    cases tyre.category <;>
      exact add_nonneg (mul_nonneg (by norm_num) hp) (mul_nonneg (by norm_num) hmed)
  · exact hp

/-- With no samples the blend returns the prior unchanged. -/
lemma updatedRate_empty (tyre : TyreProfile) : updatedRate tyre [] = tyre.degradation_rate := by
  simp [updatedRate]

/-- C4: for every lap history, after parameter estimation every catalog
entry's degradation rate is non-negative (every per-stint slope sample is
clipped non-negative and the prior blend of non-negatives is
non-negative), and a compound with no valid samples retains its entry
unchanged. -/
theorem degradation_rates_nonneg_after_fit (m : Model) (laps : List Lap)
    (hprior : ∀ p ∈ m.tyre_profiles, 0 ≤ p.2.degradation_rate) :
    (∀ p ∈ m.tyre_profiles, ∀ s ∈ compoundSlopes m laps p.1 p.2, 0 ≤ s) ∧
    (∀ q ∈ estimate_parameters m laps, 0 ≤ q.2.degradation_rate) ∧
    (∀ p ∈ m.tyre_profiles, compoundSlopes m laps p.1 p.2 = [] →
      (p.1, p.2) ∈ estimate_parameters m laps) := by
  refine ⟨?_, ?_, ?_⟩
  · intro p _ s hsmem
    exact compoundSlopes_nonneg hsmem
  · intro q hq
    unfold estimate_parameters at hq
    rcases List.mem_map.mp hq with ⟨p, hp, rfl⟩
    exact updatedRate_nonneg p.2 _ (hprior p hp) (fun s hs => compoundSlopes_nonneg hs)
  · intro p hp hempty
    unfold estimate_parameters
    apply List.mem_map.mpr
    refine ⟨p, hp, ?_⟩
    rw [hempty, updatedRate_empty]

/-- Witness for C4: the default catalog (non-negative priors) with an
empty lap history. -/
theorem degradation_rates_nonneg_after_fit_witness :
    (∀ p ∈ sampleModel.tyre_profiles, 0 ≤ p.2.degradation_rate) ∧
    ((∀ p ∈ sampleModel.tyre_profiles, ∀ s ∈ compoundSlopes sampleModel [] p.1 p.2, 0 ≤ s) ∧
    (∀ q ∈ estimate_parameters sampleModel [], 0 ≤ q.2.degradation_rate) ∧
    (∀ p ∈ sampleModel.tyre_profiles, compoundSlopes sampleModel [] p.1 p.2 = [] →
      (p.1, p.2) ∈ estimate_parameters sampleModel [])) :=
  ⟨by intro p hp; fin_cases hp <;> norm_num,
   degradation_rates_nonneg_after_fit sampleModel []
     (by intro p hp; fin_cases hp <;> norm_num)⟩

/-- Looking a key up right after it was stored at the front of the cache
finds the stored record (Python dict read-after-write). -/
lemma lookupList_cons_self {hrec : HealthRecord} (c : List (String × HealthRecord))
    (k : String) : lookupList ((k, hrec) :: c) k = some hrec := by
  unfold lookupList
  rw [List.find?_cons_of_pos _ (by simp)]
  rfl

/-- C9 counterexample: on an initialized integrator whose query yields an
absent result, the result is not cached, so the second identical call
invokes the underlying model again — refuting the claim that the second
call is always served from the cache. -/
theorem health_cache_claim_counterexample :
    sampleIntegrator.isInit = true ∧
    (get_tyre_health sampleIntegrator "VER" 5 none false).1 = none ∧
    (get_tyre_health (get_tyre_health sampleIntegrator "VER" 5 none false).2.1
        "VER" 5 none false).2.2 = true :=
  ⟨rfl, rfl, rfl⟩

/-- C9 (amended): on an initialized integrator, two identical
get_tyre_health calls without clear_cache and without force_refresh
return equal results; whenever the first call produced a result the
second is served from the cache without re-invoking the model, and
whenever the first produced none the model is invoked again. -/
theorem cached_health_query_idempotent (it : Integrator) (d : String) (lap : ℕ)
    (tc : Option String) (hinit : it.isInit = true) :
    ((get_tyre_health (get_tyre_health it d lap tc false).2.1 d lap tc false).1 =
      (get_tyre_health it d lap tc false).1) ∧
    (∀ hrec, (get_tyre_health it d lap tc false).1 = some hrec →
      (get_tyre_health (get_tyre_health it d lap tc false).2.1 d lap tc false).2.2 = false) ∧
    ((get_tyre_health it d lap tc false).1 = none →
      (get_tyre_health (get_tyre_health it d lap tc false).2.1 d lap tc false).2.2 = true) := by
  cases hc : lookupList it.cache (cacheKey d lap tc) with
  | some hrec =>
    have h1 : get_tyre_health it d lap tc false = (some hrec, it, false) := by
      unfold get_tyre_health
      simp [hinit, hc]
    rw [h1]
    simp only
    rw [h1]
    exact ⟨rfl, fun _ _ => rfl, fun hn => absurd hn (by simp)⟩
  | none =>
    cases hg : get_health it.model d lap it.laps_df tc with
    | error e =>
      have h1 : get_tyre_health it d lap tc false = (none, it, true) := by
        unfold get_tyre_health
        simp [hinit, hc, hg]
      rw [h1]
      simp only
      rw [h1]
      exact ⟨rfl, fun _ hs => absurd hs (by simp), fun _ => rfl⟩
    | ok o =>
      cases o with
      | none =>
        have h1 : get_tyre_health it d lap tc false = (none, it, true) := by
          unfold get_tyre_health
          simp [hinit, hc, hg]
        rw [h1]
        simp only
        rw [h1]
        exact ⟨rfl, fun _ hs => absurd hs (by simp), fun _ => rfl⟩
      | some hrec =>
        have h1 : get_tyre_health it d lap tc false =
            (some hrec, { it with cache := (cacheKey d lap tc, hrec) :: it.cache }, true) := by
          unfold get_tyre_health
          simp [hinit, hc, hg]
        have h2 : get_tyre_health
            { it with cache := (cacheKey d lap tc, hrec) :: it.cache } d lap tc false =
            (some hrec, { it with cache := (cacheKey d lap tc, hrec) :: it.cache }, false) := by
          unfold get_tyre_health
          simp [hinit, lookupList_cons_self]
        rw [h1]
        simp only
        rw [h2]
        exact ⟨rfl, fun _ _ => rfl, fun hn => absurd hn (by simp)⟩

/-- Witness for the amended C9 on the sample integrator. -/
theorem cached_health_query_idempotent_witness :
    sampleIntegrator.isInit = true ∧
    (((get_tyre_health (get_tyre_health sampleIntegrator "VER" 5 none false).2.1
        "VER" 5 none false).1 =
      (get_tyre_health sampleIntegrator "VER" 5 none false).1) ∧
    (∀ hrec, (get_tyre_health sampleIntegrator "VER" 5 none false).1 = some hrec →
      (get_tyre_health (get_tyre_health sampleIntegrator "VER" 5 none false).2.1
        "VER" 5 none false).2.2 = false) ∧
    ((get_tyre_health sampleIntegrator "VER" 5 none false).1 = none →
      (get_tyre_health (get_tyre_health sampleIntegrator "VER" 5 none false).2.1
        "VER" 5 none false).2.2 = true)) :=
  ⟨rfl, cached_health_query_idempotent sampleIntegrator "VER" 5 none rfl⟩

end F1Replay
